import Mathlib

/-!
Verification of the FoodWise assessment core: the schema layer, the prompt
renderer and the inference gateway of the repository, together with the
server actions `analyzeAndSaveScan` and `deleteScan`.

Shallow embedding conventions:
  * zod schemas become explicit parse functions over "raw" records whose
    fields are `Option`-valued (a missing or wrong-typed field is `none`);
    like zod's `parse`, a parse either returns the typed value or the full
    list of field-level issues.
  * JavaScript numbers are modelled as `Rat` (only sign and equality of the
    nutrition values matter to the properties below).
  * The external generative model is an oracle parameter
    `PersonalizedFoodRecommendationsInput -> Except Unit RawModelReply`
    (`.error` = transport failure); the Firestore document store is passed
    as explicit state.
  * Handlebars template rendering (genkit renders prompt templates with
    escaping disabled) is embedded as deterministic string concatenation:
    a JavaScript string array interpolates as its elements joined by `","`,
    and a plain object interpolates as `"[object Object]"`.
-/

namespace FoodWise

/-- Health-condition tags of the application profile type (src/lib/types,
`HealthCondition`). -/
inductive HealthCondition
  | diabetes
  | highBP
  | allergies
  | celiacDisease
  | lactoseIntolerance
  deriving DecidableEq, Repr

/-- Tag text of a health condition, exactly as in `ALL_HEALTH_CONDITIONS`. -/
def HealthCondition.text : HealthCondition → String
  | .diabetes => "diabetes"
  | .highBP => "high BP"
  | .allergies => "allergies"
  | .celiacDisease => "celiac disease"
  | .lactoseIntolerance => "lactose intolerance"

/-- The application's list of legal health-condition tags
(src/lib/types, `ALL_HEALTH_CONDITIONS`). -/
def ALL_HEALTH_CONDITIONS : List String :=
  [("diabetes"), ("high BP"), ("allergies"), ("celiac disease"), ("lactose intolerance")]

/-- Weight goals of the application profile type (src/lib/types, `WeightGoal`). -/
inductive WeightGoal
  | loseWeight
  | maintainWeight
  | gainWeight
  deriving DecidableEq, Repr

/-- Tag text of a weight goal, exactly as in `ALL_WEIGHT_GOALS`. -/
def WeightGoal.text : WeightGoal → String
  | .loseWeight => "lose weight"
  | .maintainWeight => "maintain weight"
  | .gainWeight => "gain weight"

/-- The three-valued verdict enum `FoodSafetyAssessmentSchema` of
src/ai/flows/personalized-food-recommendations.ts. -/
inductive FoodSafetyAssessment
  | safeToEat
  | consumeInModeration
  | notSafe
  deriving DecidableEq, Repr

/-- Exact (case-sensitive) match of a string against the three enum values of
`FoodSafetyAssessmentSchema`; `none` on any other string, as `z.enum` parses. -/
def parseAssessment (s : String) : Option FoodSafetyAssessment :=
  if s = ("Safe to Eat") then some .safeToEat
  else if s = ("Consume in Moderation") then some .consumeInModeration
  else if s = ("Not Safe") then some .notSafe
  else none

/-- Typed result of `PersonalizedFoodRecommendationsOutputSchema`:
an enumerated assessment plus a free-text explanation. -/
structure PersonalizedFoodRecommendationsOutput where
  assessment : FoodSafetyAssessment
  explanation : String
  deriving DecidableEq, Repr

/-- Field-level validation issue, as zod reports them (one issue per
offending field path). -/
inductive ValidationIssue
  | missingField (path : String)
  | invalidEnumValue (path : String) (value : String)
  | negativeNumber (path : String)
  deriving DecidableEq, Repr

/-- Raw reply of the external model before output validation: each schema
field is present with a string value or absent (`none` also covers a
wrong-typed field, which zod rejects the same way). -/
structure RawModelReply where
  assessment : Option String
  explanation : Option String
  deriving DecidableEq, Repr

/-- Parse of a raw model reply against
`PersonalizedFoodRecommendationsOutputSchema` (the spec's `validateOutput`):
`assessment` must be present and one of the three enum values, `explanation`
must be present; like zod, all issues are collected. -/
def validateOutput (raw : RawModelReply) :
    Except (List ValidationIssue) PersonalizedFoodRecommendationsOutput :=
  match raw.assessment, raw.explanation with
  | some a, some e =>
    match parseAssessment a with
    | some v => .ok ⟨v, e⟩
    | none => .error [.invalidEnumValue ("assessment") a]
  | some a, none =>
    match parseAssessment a with
    | some _ => .error [.missingField ("explanation")]
    | none => .error [.invalidEnumValue ("assessment") a, .missingField ("explanation")]
  | none, some _ => .error [.missingField ("assessment")]
  | none, none => .error [.missingField ("assessment"), .missingField ("explanation")]

/-- Error taxonomy of the inference gateway: transport failure versus a reply
that fails output-schema validation. -/
inductive AiError
  | inferenceUnavailable
  | invalidModelOutput
  deriving DecidableEq, Repr

/-- Structured nutrition values of `NutritionInformationSchema`
(plain `z.number()` fields plus the ingredient list). -/
structure NutritionInformation where
  calories : Rat
  fat : Rat
  sugar : Rat
  sodium : Rat
  ingredients : List String
  deriving DecidableEq, Repr

/-- Food scan data of `FoodScanDataSchema`: raw OCR text plus structured
nutrition values. -/
structure FoodScanData where
  foodLabelData : String
  nutritionInformation : NutritionInformation
  deriving DecidableEq, Repr

/-- User profile slice of `UserProfileSchema` as sent to the flow:
enumerated conditions plus a free-text weight goal. -/
structure AiUserProfile where
  healthConditions : List HealthCondition
  weightGoals : String
  deriving DecidableEq, Repr

/-- Input of `PersonalizedFoodRecommendationsInputSchema`. -/
structure PersonalizedFoodRecommendationsInput where
  userProfile : AiUserProfile
  foodScanData : FoodScanData
  deriving DecidableEq, Repr

/-- The gateway `getPersonalizedFoodRecommendations`: submit the request to
the external model (the oracle) and validate the reply against the output
schema; a transport failure and an invalid reply surface as distinct
`AiError` kinds. -/
def getPersonalizedFoodRecommendations
    (oracle : PersonalizedFoodRecommendationsInput → Except Unit RawModelReply)
    (input : PersonalizedFoodRecommendationsInput) :
    Except AiError PersonalizedFoodRecommendationsOutput :=
  match oracle input with
  | .error _ => .error .inferenceUnavailable
  | .ok raw =>
    match validateOutput raw with
    | .error _ => .error .invalidModelOutput
    | .ok out => .ok out

/-- Join of a list of strings with a comma, as the JavaScript default
`Array.prototype.toString` stringifies a string array inside a Handlebars
interpolation. -/
def joinComma : List String → String
  | [] => ""
  | [s] => s
  | s :: rest => s ++ "," ++ joinComma rest

/-- Template text of `personalizedFoodRecommendationsPrompt` before the
`userProfile.healthConditions` interpolation. -/
def promptChunkA : String :=
  "You are an AI assistant that provides personalized food recommendations based on a user\x27s health conditions and food scan data.\n\n  User Profile:\n  Health Conditions: "

/-- Template text between the health-conditions and weight-goals
interpolations. -/
def promptChunkB : String := "\n  Weight Goals: "

/-- Template text between the weight-goals and food-label-data
interpolations. -/
def promptChunkC : String := "\n\n  Food Scan Data:\n  Food Label Data: "

/-- Template text after the food-label-data interpolation, through the task
instructions and into the first few-shot example; the
`foodScanData.nutritionInformation` interpolation is a plain object, which
Handlebars stringifies as `[object Object]`. -/
def promptChunkD : String :=
  "\n  Nutrition Information: [object Object]\n\n  Based on the user\x27s health conditions and the food scan data, assess the food\x27s safety and provide an explanation for the assessment.\n  The assessment should be one of the following: \"Safe to Eat\", \"Consume in Moderation\", or \"Not Safe\".\n  The explanation should outline the specific ingredients or nutritional values that triggered the assessment.\n\n  Example 1:\n  User Profile:\n  Health Conditions: [\"diabetes\"]\n  Weight Goals: \"lose weight\"\n  Food Scan Data:\n  Food Label Data: \"Ingredients: High Fructose Corn Syrup, Enriched Flour, Sugar, ...\"\n  Nutrition Information: \x7bcalories: 200, fat: 5, sugar: 20, sodium: 100\x7d\n  Output:\n  \x7bassessment: \"Consume in Moderation\", explanation: \"This food is high in sugar, which may not be suitable for people with diabetes.  It is also high in calories and "

/-- Phrase of the first few-shot example of the template which ties the
verdict explanation to the user\x27s weight-loss goals (kept as a separate
chunk so containment can be stated about it). -/
def weightLossGoalsPhrase : String := "may hinder your weight loss goals"

/-- Template text from the end of the first few-shot example through the end
of the template. -/
def promptChunkE : String :=
  ".\"\x7d\n\n  Example 2:\n  User Profile:\n  Health Conditions: [\"allergies\"]\n  Weight Goals: \"maintain weight\"\n  Food Scan Data:\n  Food Label Data: \"Ingredients: Milk, Eggs, Wheat, ...\"\n  Nutrition Information: \x7bcalories: 150, fat: 3, sugar: 10, sodium: 50\x7d\n  Output:\n  \x7bassessment: \"Not Safe\", explanation: \"This food contains milk, eggs, and wheat, which are common allergens. It is not safe for people with allergies.\"\x7d\n\n  Example 3:\n  User Profile:\n  Health Conditions: []\n  Weight Goals: \"gain weight\"\n  Food Scan Data:\n  Food Label Data: \"Ingredients: Chicken, Rice, Vegetables, ...\"\n  Nutrition Information: \x7bcalories: 300, fat: 10, sugar: 5, sodium: 150\x7d\n  Output:\n  \x7bassessment: \"Safe to Eat\", explanation: \"This food appears to be safe to eat. It contains a balanced combination of nutrients and is not high in sugar or sodium.\"\x7d\n\n  Output:\n  "

/-- Deterministic rendering of `personalizedFoodRecommendationsPrompt`
(src/ai/flows/personalized-food-recommendations.ts, lines 75-120) on a
validated input: the fixed template text with the four `\x7b\x7bfield\x7d\x7d`
interpolations substituted. -/
def renderPrompt (i : PersonalizedFoodRecommendationsInput) : String :=
  promptChunkA ++ joinComma (i.userProfile.healthConditions.map HealthCondition.text) ++
  promptChunkB ++ i.userProfile.weightGoals ++
  promptChunkC ++ i.foodScanData.foodLabelData ++
  promptChunkD ++ weightLossGoalsPhrase ++ promptChunkE

/-- Containment of `t` in `s` as strings: the characters of `t` occur
consecutively inside the characters of `s`. -/
def strContains (s t : String) : Prop :=
  ∃ a b : List Char, s.data = a ++ t.data ++ b

theorem data_append (s t : String) : (s ++ t).data = s.data ++ t.data := by
  cases s
  cases t
  rfl

theorem string_append_assoc (a b c : String) : a ++ b ++ c = a ++ (b ++ c) := by
  apply String.ext
  simp [data_append, List.append_assoc]

theorem strContains_of_eq (s a t b : String) (h : s = a ++ t ++ b) :
    strContains s t := by
  refine ⟨a.data, b.data, ?_⟩
  subst h
  simp [data_append]

theorem strContains_context (pre s post t : String) (h : strContains s t) :
    strContains (pre ++ s ++ post) t := by
  obtain ⟨a, b, hab⟩ := h
  refine ⟨pre.data ++ a, b ++ post.data, ?_⟩
  simp [data_append, hab]

theorem strContains_mem {s t : String} (h : strContains s t)
    {c : Char} (hc : c ∈ t.data) : c ∈ s.data := by
  obtain ⟨a, b, hab⟩ := h
  rw [hab]
  simp [List.mem_append, hc]

theorem joinComma_contains {l : List String} {s : String} (h : s ∈ l) :
    strContains (joinComma l) s := by
  induction l with
  | nil => cases h
  | cons x rest ih =>
    cases h with
    | head =>
      cases rest with
      | nil => exact ⟨[], [], by simp [joinComma]⟩
      | cons y ys =>
        refine ⟨[], ("," ++ joinComma (y :: ys)).data, ?_⟩
        simp [joinComma, data_append, string_append_assoc]
    | tail _ hmem =>
      cases rest with
      | nil => cases hmem
      | cons y ys =>
        obtain ⟨a, b, hab⟩ := ih hmem
        refine ⟨(x ++ ",").data ++ a, b, ?_⟩
        simp [joinComma, data_append, hab, List.append_assoc, string_append_assoc]

/-- User profile slice of the extended `UserProfileSchema` (the last
snapshot of src/ai/flows/personalized-food-recommendations.ts): optional
detailed conditions, gender and current weight in addition to the
enumerated conditions and the weight goal. -/
structure ExtendedUserProfile where
  healthConditions : List HealthCondition
  detailedHealthConditions : Option String
  weightGoals : String
  gender : Option String
  currentWeight : Option Rat
  deriving DecidableEq, Repr

/-- Nutrition values of the extended `NutritionInformationSchema`, whose
ingredients are a single string. -/
structure ExtendedNutritionInformation where
  calories : Rat
  fat : Rat
  sugar : Rat
  sodium : Rat
  ingredients : String
  deriving DecidableEq, Repr

/-- Food scan data of the extended schema variant. -/
structure ExtendedFoodScanData where
  foodLabelData : String
  nutritionInformation : ExtendedNutritionInformation
  deriving DecidableEq, Repr

/-- Input of the extended `PersonalizedFoodRecommendationsInputSchema`. -/
structure ExtendedInput where
  userProfile : ExtendedUserProfile
  foodScanData : ExtendedFoodScanData
  deriving DecidableEq, Repr

/-- Rendering of an absent optional field: Handlebars interpolates a missing
key as the empty string. -/
def optText (v : Option String) : String := v.getD ("")

/-- Decimal text of a nutrition number as interpolated into the template
(the JavaScript number formatting is abstracted by the rational\x27s
string representation). -/
def numText (q : Rat) : String := toString q

/-- Text of an optional number interpolation. -/
def optNumText (v : Option Rat) : String := (v.map numText).getD ("")

/-- Rendering of the extended template\x27s health-conditions block:
`\x7b\x7b#if\x7d\x7d` treats an empty array as falsy and emits
`None specified`; otherwise each condition is listed as `- tag` with
`, ` between consecutive items. -/
def renderCondsExtended : List HealthCondition → String
  | [] => "None specified"
  | [c] => "- " ++ c.text
  | c :: rest => "- " ++ c.text ++ ", " ++ renderCondsExtended rest

/-- The sentence of the extended template which instructs the model that the
verdict must come from health risks and never from weight goals. -/
def separationInstruction : String :=
  "**CRITICAL:** The safety assessment must be based on health risks, not on whether it aligns with weight goals."

/-- Extended template text before the gender interpolation. -/
def extChunkA : String :=
  "You are an AI assistant that provides personalized food recommendations based on a user\x27s health profile and food scan data.\n\n  **User Profile:**\n  - Gender: "

/-- Extended template text between gender and current weight. -/
def extChunkB : String := "\n  - Current Weight: "

/-- Extended template text between current weight and weight goals. -/
def extChunkC : String := " kg\n  - Weight Goals: "

/-- Extended template text between weight goals and the health-conditions
block. -/
def extChunkD : String := "\n  - Health Conditions: "

/-- Extended template text between the health-conditions block and the
detailed health problems. -/
def extChunkE : String := "\n  - Detailed Health Problems: "

/-- Extended template text between detailed health problems and the raw OCR
text. -/
def extChunkF : String :=
  "\n\n  **Food Scan Data:**\n  - Raw OCR Text: "

/-- Extended template text between the raw OCR text and the calories value. -/
def extChunkG : String :=
  "\n  - Structured Nutrition Information:\n    - Calories: "

/-- Extended template text between calories and fat. -/
def extChunkH : String := "\n    - Fat: "

/-- Extended template text between fat and sugar. -/
def extChunkI : String := "g\n    - Sugar: "

/-- Extended template text between sugar and sodium. -/
def extChunkJ : String := "g\n    - Sodium: "

/-- Extended template text between sodium and the ingredients string. -/
def extChunkK : String := "mg\n    - Ingredients: "

/-- Extended template text from after the ingredients interpolation through
the three-part task instructions, up to the CRITICAL sentence. -/
def extChunkL : String :=
  "\n\n  **Your Task (in 3 parts):**\n\n  1.  **Product Summary:**\n      - Briefly describe what the food product is in a neutral, objective tone. (e.g., \"This is a sweetened, multi-grain breakfast cereal.\")\n\n  2.  **Nutritional Analysis:**\n      - Analyze the nutritional information (calories, fat, sugar, sodium) in the context of the user\x27s **weight goals, gender, and current weight**.\n      - Provide insights on whether the food supports their goals. For example, if they want to lose weight, is it high in calories?\n\n  3.  **Safety Assessment & Explanation:**\n      - Based **only** on the user\x27s **Health Conditions** and **Detailed Health Problems**, determine if the food is \"Safe to Eat\", \"Consume in Moderation\", or \"Not Safe\".\n      - Pay close attention to specific ingredients in relation to allergies, diabetes (sugar content), high blood pressure (sodium), etc.\n      - Provide a clear explanation for your assessment, pointing out the specific ingredients or nutritional factors that pose a risk.\n\n  "

/-- Extended template text after the CRITICAL sentence, through the end. -/
def extChunkM : String :=
  " A high-calorie food might be \"Safe to Eat\" for someone with no allergies, even if it\x27s not good for weight loss.\n\n  Strictly adhere to the output schema.\n  "

/-- Deterministic rendering of the extended variant of
`personalizedFoodRecommendationsPrompt` (the last snapshot of
src/ai/flows/personalized-food-recommendations.ts) on a validated input. -/
def renderPromptExtended (i : ExtendedInput) : String :=
  extChunkA ++ optText i.userProfile.gender ++
  extChunkB ++ optNumText i.userProfile.currentWeight ++
  extChunkC ++ i.userProfile.weightGoals ++
  extChunkD ++ renderCondsExtended i.userProfile.healthConditions ++
  extChunkE ++ optText i.userProfile.detailedHealthConditions ++
  extChunkF ++ i.foodScanData.foodLabelData ++
  extChunkG ++ numText i.foodScanData.nutritionInformation.calories ++
  extChunkH ++ numText i.foodScanData.nutritionInformation.fat ++
  extChunkI ++ numText i.foodScanData.nutritionInformation.sugar ++
  extChunkJ ++ numText i.foodScanData.nutritionInformation.sodium ++
  extChunkK ++ i.foodScanData.nutritionInformation.ingredients ++
  extChunkL ++ separationInstruction ++ extChunkM

/-- Raw values of the scan entry form before validation (a missing or
wrong-typed field is `none`). -/
structure RawScanForm where
  productName : Option String
  ingredients : Option String
  calories : Option Rat
  fat : Option Rat
  sugar : Option Rat
  sodium : Option Rat
  deriving DecidableEq, Repr

/-- Validated scan form values (the fields `ScanFormSchema` is used with
throughout the sources: product name, ingredients text and the four
nutrition numbers). -/
structure ScanFormValues where
  productName : String
  ingredients : String
  calories : Rat
  fat : Rat
  sugar : Rat
  sodium : Rat
  deriving DecidableEq, Repr

/-- Issues of a required string field: absent means a missing-field issue. -/
def requireString (path : String) (v : Option String) : List ValidationIssue :=
  match v with
  | none => [.missingField path]
  | some _ => []

/-- Issues of a required nutrition number: absent means a missing-field
issue, and a negative value a negative-number issue. -/
def checkNutrition (path : String) (v : Option Rat) : List ValidationIssue :=
  match v with
  | none => [.missingField path]
  | some x => if x < 0 then [.negativeNumber path] else []

/-- All field-level issues of a raw scan form, in field order, as zod
collects them. -/
def scanFormIssues (raw : RawScanForm) : List ValidationIssue :=
  requireString ("productName") raw.productName ++
  requireString ("ingredients") raw.ingredients ++
  checkNutrition ("calories") raw.calories ++
  checkNutrition ("fat") raw.fat ++
  checkNutrition ("sugar") raw.sugar ++
  checkNutrition ("sodium") raw.sodium

/-- Modelled from the spec: `ScanFormSchema` is imported from `@/lib/schemas`
by `analyzeAndSaveScan` and the scan form, but its definition is absent from
the repository files; per the spec, `validateInput` "rejects missing required
fields, wrong-typed enums, negative nutrition values" and on failure returns
"a structured validation error enumerating the offending field paths". The
parse succeeds exactly when no field has an issue (the `getD` defaults are
never used on success, since a missing field is an issue). -/
def scanFormParse (raw : RawScanForm) :
    Except (List ValidationIssue) ScanFormValues :=
  if scanFormIssues raw = [] then
    .ok ⟨raw.productName.getD (""), raw.ingredients.getD (""),
      raw.calories.getD 0, raw.fat.getD 0, raw.sugar.getD 0, raw.sodium.getD 0⟩
  else .error (scanFormIssues raw)

/-- Value of a nutrition field of the raw form, selected by its path name. -/
def nutritionField (raw : RawScanForm) (f : String) : Option Rat :=
  if f = ("calories") then raw.calories
  else if f = ("fat") then raw.fat
  else if f = ("sugar") then raw.sugar
  else if f = ("sodium") then raw.sodium
  else none

/-- Stored user profile (src/lib/types, `UserProfile`; the creation
timestamp carries no information used here and is omitted). -/
structure UserProfile where
  uid : String
  email : String
  name : String
  healthConditions : List HealthCondition
  weightGoals : WeightGoal
  deriving DecidableEq, Repr

/-- Input slice persisted with a scan (src/lib/types, `ScanInput`). -/
structure ScanInput where
  productName : String
  ingredients : String
  calories : Rat
  fat : Rat
  sugar : Rat
  sodium : Rat
  deriving DecidableEq, Repr

/-- Result slice persisted with a scan (src/lib/types, `ScanResult`). -/
structure ScanResult where
  assessment : FoodSafetyAssessment
  explanation : String
  deriving DecidableEq, Repr

/-- Persisted scan record (src/lib/types, `Scan`; the timestamp is
omitted). -/
structure Scan where
  id : String
  userId : String
  productName : String
  input : ScanInput
  result : ScanResult
  deriving DecidableEq, Repr

/-- Explicit state of the server actions: the `users` collection, the
`scans` collection, and a log of the requests handed to the external model
(so that "the request is never sent to the model" is statable). -/
structure ScanState where
  users : List UserProfile
  scans : List Scan
  aiCalls : List PersonalizedFoodRecommendationsInput
  deriving DecidableEq, Repr

/-- Lookup of the user profile document by uid
(`getDoc(doc(db, users, uid))`). -/
def lookupUser (users : List UserProfile) (uid : String) : Option UserProfile :=
  users.find? (fun p => p.uid == uid)

/-- Construction of the flow input from the profile and the validated form
values (src/app/actions/scan.ts, lines 37-52): the label text is rebuilt
from the product name and ingredients, and the ingredients string is split
on commas and trimmed. -/
def mkAiInput (profile : UserProfile) (v : ScanFormValues) :
    PersonalizedFoodRecommendationsInput :=
  ⟨⟨profile.healthConditions, profile.weightGoals.text⟩,
   ⟨"Product: " ++ v.productName ++ ". Ingredients: " ++ v.ingredients,
    ⟨v.calories, v.fat, v.sugar, v.sodium,
     (v.ingredients.splitOn (",")).map String.trim⟩⟩⟩

/-- Errors `analyzeAndSaveScan` can throw: the unauthenticated guard, a
zod validation failure (which is thrown outside the try block and keeps its
field detail), the missing-profile guard, and the single generic error of
the catch block that wraps the model call and the save. -/
inductive ScanError
  | notAuthenticated
  | validation (issues : List ValidationIssue)
  | profileNotFound
  | processingFailed
  deriving DecidableEq, Repr

/-- The server action `analyzeAndSaveScan` (src/app/actions/scan.ts, lines
11-79): authentication guard, form validation, profile lookup, model call,
then persistence of the scan record; every failure inside the try block is
rethrown as the single generic `processingFailed` error. -/
def analyzeAndSaveScan
    (oracle : PersonalizedFoodRecommendationsInput → Except Unit RawModelReply)
    (uid : String) (values : RawScanForm) (st : ScanState) :
    Except ScanError String × ScanState :=
  if uid = ("") then (.error .notAuthenticated, st)
  else
    match scanFormParse values with
    | .error issues => (.error (.validation issues), st)
    | .ok v =>
      match lookupUser st.users uid with
      | none => (.error .profileNotFound, st)
      | some profile =>
        match getPersonalizedFoodRecommendations oracle (mkAiInput profile v) with
        | .error _ =>
          (.error .processingFailed,
           ⟨st.users, st.scans, st.aiCalls ++ [mkAiInput profile v]⟩)
        | .ok aiResult =>
          (.ok ("scan-" ++ toString st.scans.length),
           ⟨st.users,
            st.scans ++
              [⟨"scan-" ++ toString st.scans.length, uid, v.productName,
                ⟨v.productName, v.ingredients, v.calories, v.fat, v.sugar, v.sodium⟩,
                ⟨aiResult.assessment, aiResult.explanation⟩⟩],
            st.aiCalls ++ [mkAiInput profile v]⟩)

/-- Errors `deleteScan` can throw before touching the store. -/
inductive DeleteError
  | scanIdRequired
  | notAuthenticated
  | scanNotFoundOrNoPermission
  deriving DecidableEq, Repr

/-- The server action `deleteScan` (src/app/actions/scan.ts, lines 81-104):
guards on a non-empty scan id and caller uid, then deletes the scan document
only when it exists and its `userId` equals the caller; the resulting scans
collection is returned alongside the outcome. -/
def deleteScan (scanId uid : String) (scans : List Scan) :
    Except DeleteError Unit × List Scan :=
  if scanId = ("") then (.error .scanIdRequired, scans)
  else if uid = ("") then (.error .notAuthenticated, scans)
  else
    match scans.find? (fun sc => sc.id == scanId) with
    | none => (.error .scanNotFoundOrNoPermission, scans)
    | some sc =>
      if sc.userId = uid then (.ok (), scans.filter (fun sc => sc.id != scanId))
      else (.error .scanNotFoundOrNoPermission, scans)

/-- Membership test of a health-condition tag in the `HealthConditionSchema`
enum of src/ai/flows/food-safety-assessment.ts (lines 14-19), which admits
only four tags. -/
def foodSafetyConditionAccepted (s : String) : Bool :=
  s = ("diabetes") ∨ s = ("high BP") ∨ s = ("allergies") ∨ s = ("none")

/-- Raw input of `assessFoodSafety` before validation. -/
structure RawFoodSafetyInput where
  ingredients : Option String
  nutritionFacts : Option String
  healthConditions : List String
  deriving DecidableEq, Repr

/-- Typed input of `FoodSafetyInputSchema`. -/
structure FoodSafetyInput where
  ingredients : String
  nutritionFacts : String
  healthConditions : List String
  deriving DecidableEq, Repr

/-- All field-level issues of a raw `assessFoodSafety` input: the two string
fields are required, and every health condition must be one of the four
enum tags. -/
def foodSafetyInputIssues (raw : RawFoodSafetyInput) : List ValidationIssue :=
  requireString ("ingredients") raw.ingredients ++
  requireString ("nutritionFacts") raw.nutritionFacts ++
  (raw.healthConditions.filter (fun s => ¬ foodSafetyConditionAccepted s)).map
    (fun s => .invalidEnumValue ("healthConditions") s)

/-- Parse of a raw input against `FoodSafetyInputSchema`
(src/ai/flows/food-safety-assessment.ts, lines 21-31). -/
def validateFoodSafetyInput (raw : RawFoodSafetyInput) :
    Except (List ValidationIssue) FoodSafetyInput :=
  if foodSafetyInputIssues raw = [] then
    .ok ⟨raw.ingredients.getD (""), raw.nutritionFacts.getD (""), raw.healthConditions⟩
  else .error (foodSafetyInputIssues raw)

theorem strContains_refl (s : String) : strContains s s :=
  ⟨[], [], by simp⟩

theorem strContains_left {s u : String} (t : String) (h : strContains s u) :
    strContains (s ++ t) u := by
  obtain ⟨a, b, hab⟩ := h
  exact ⟨a, b ++ t.data, by simp [data_append, hab, List.append_assoc]⟩

theorem strContains_right {t u : String} (s : String) (h : strContains t u) :
    strContains (s ++ t) u := by
  obtain ⟨a, b, hab⟩ := h
  exact ⟨s.data ++ a, b, by simp [data_append, hab, List.append_assoc]⟩

theorem ne_empty_of_contains {s t : String} (h : strContains s t)
    (ht : t.data ≠ []) : s ≠ ("") := by
  obtain ⟨a, b, hab⟩ := h
  intro hs
  have h0 : a ++ t.data ++ b = [] := by
    rw [← hab, hs]
  rcases List.append_eq_nil.mp h0 with ⟨h01, hb⟩
  rcases List.append_eq_nil.mp h01 with ⟨ha, htd⟩
  exact ht htd

/-- Oracle fixture: the external model is unreachable (transport failure). -/
def transportOracle :
    PersonalizedFoodRecommendationsInput → Except Unit RawModelReply :=
  fun _ => .error ()

/-- Oracle fixture: the external model replies, but with an assessment value
outside the three-valued enum. -/
def badReplyOracle :
    PersonalizedFoodRecommendationsInput → Except Unit RawModelReply :=
  fun _ => .ok ⟨some ("Tasty"), some ("fine")⟩

/-- Reply fixture with an out-of-enum assessment. -/
def rawBadReply : RawModelReply := ⟨some ("Probably Fine"), some ("eh")⟩

/-- Reply fixture whose explanation field is absent. -/
def rawMissingExpl : RawModelReply := ⟨some ("Safe to Eat"), none⟩

/-- Profile fixture. -/
def profileW : UserProfile :=
  ⟨("u1"), ("u1@example.com"), ("Alex"), [.diabetes, .highBP], .loseWeight⟩

/-- State fixture: one stored user profile, no scans, no model calls yet. -/
def stW : ScanState := ⟨[profileW], [], []⟩

/-- Well-formed scan form fixture. -/
def rawFormW : RawScanForm :=
  ⟨some ("Crunchy Oats Cereal"), some ("Oats, Sugar"),
   some 140, some 3, some 12, some 180⟩

/-- Scan form fixture with a negative sugar value. -/
def rawFormNeg : RawScanForm :=
  ⟨some ("Crunchy Oats Cereal"), some ("Oats, Sugar"),
   some 140, some 3, some (-1), some 180⟩

/-- Flow input fixture. -/
def iC6 : PersonalizedFoodRecommendationsInput :=
  ⟨⟨[.diabetes], ("lose weight")⟩,
   ⟨("Product: Cereal. Ingredients: Oats, Sugar"),
    ⟨200, 5, 20, 100, [("Oats"), ("Sugar")]⟩⟩⟩

/-- Claim C1: a model reply whose assessment value is not exactly one of the
three enumerated verdicts fails output validation, and the gateway then
surfaces `invalidModelOutput` instead of producing an `AssessmentResult`. -/
theorem c1_invalid_verdict_rejected (raw : RawModelReply) (a : String)
    (ha : raw.assessment = some a)
    (h1 : a ≠ ("Safe to Eat")) (h2 : a ≠ ("Consume in Moderation"))
    (h3 : a ≠ ("Not Safe")) :
    (∃ issues, validateOutput raw = .error issues) ∧
    ∀ (oracle : PersonalizedFoodRecommendationsInput → Except Unit RawModelReply)
      (input : PersonalizedFoodRecommendationsInput), oracle input = .ok raw →
      getPersonalizedFoodRecommendations oracle input = .error .invalidModelOutput := by
  have hpa : parseAssessment a = none := by
    unfold parseAssessment
    rw [if_neg h1, if_neg h2, if_neg h3]
  have herr : ∃ issues, validateOutput raw = .error issues := by
    cases hex : raw.explanation with
    | none =>
      exact ⟨[.invalidEnumValue ("assessment") a, .missingField ("explanation")],
        by simp [validateOutput, ha, hex, hpa]⟩
    | some e =>
      exact ⟨[.invalidEnumValue ("assessment") a],
        by simp [validateOutput, ha, hex, hpa]⟩
  refine ⟨herr, ?_⟩
  intro oracle input hcall
  obtain ⟨issues, hiss⟩ := herr
  simp [getPersonalizedFoodRecommendations, hcall, hiss]

/-- Claim C1 witness at the concrete reply `rawBadReply`. -/
theorem c1_invalid_verdict_rejected_witness :
    (∃ issues, validateOutput rawBadReply = .error issues) ∧
    ∀ (oracle : PersonalizedFoodRecommendationsInput → Except Unit RawModelReply)
      (input : PersonalizedFoodRecommendationsInput), oracle input = .ok rawBadReply →
      getPersonalizedFoodRecommendations oracle input = .error .invalidModelOutput :=
  c1_invalid_verdict_rejected rawBadReply ("Probably Fine") rfl
    (by decide) (by decide) (by decide)

/-- Claim C3 counterexample: the output schema accepts a reply whose
explanation is the empty string, so an accepted `AssessmentResult` need not
have a non-empty explanation. -/
theorem c3_counterexample :
    validateOutput ⟨some ("Safe to Eat"), some ("")⟩ = .ok ⟨.safeToEat, ("")⟩ ∧
    (("") : String).length = 0 :=
  ⟨rfl, rfl⟩

/-- Claim C3 (amended): a reply whose explanation field is absent is
rejected by output validation with a missing-field issue for `explanation`,
and the gateway produces no `AssessmentResult` (it surfaces
`invalidModelOutput`); an accepted reply has the explanation field present,
though possibly empty. -/
theorem c3_missing_explanation_rejected (raw : RawModelReply)
    (h : raw.explanation = none) :
    (∃ issues, validateOutput raw = .error issues ∧
       ValidationIssue.missingField ("explanation") ∈ issues) ∧
    ∀ (oracle : PersonalizedFoodRecommendationsInput → Except Unit RawModelReply)
      (input : PersonalizedFoodRecommendationsInput), oracle input = .ok raw →
      getPersonalizedFoodRecommendations oracle input = .error .invalidModelOutput := by
  have herr : ∃ issues, validateOutput raw = .error issues ∧
      ValidationIssue.missingField ("explanation") ∈ issues := by
    cases hex : raw.assessment with
    | none =>
      exact ⟨[.missingField ("assessment"), .missingField ("explanation")],
        by simp [validateOutput, h, hex], by simp⟩
    | some a =>
      cases hpa : parseAssessment a with
      | none =>
        exact ⟨[.invalidEnumValue ("assessment") a, .missingField ("explanation")],
          by simp [validateOutput, h, hex, hpa], by simp⟩
      | some v =>
        exact ⟨[.missingField ("explanation")],
          by simp [validateOutput, h, hex, hpa], by simp⟩
  refine ⟨herr, ?_⟩
  intro oracle input hcall
  obtain ⟨issues, hiss, _⟩ := herr
  simp [getPersonalizedFoodRecommendations, hcall, hiss]

/-- Claim C3 amended witness at the concrete reply `rawMissingExpl`. -/
theorem c3_missing_explanation_rejected_witness :
    (∃ issues, validateOutput rawMissingExpl = .error issues ∧
       ValidationIssue.missingField ("explanation") ∈ issues) ∧
    ∀ (oracle : PersonalizedFoodRecommendationsInput → Except Unit RawModelReply)
      (input : PersonalizedFoodRecommendationsInput), oracle input = .ok rawMissingExpl →
      getPersonalizedFoodRecommendations oracle input = .error .invalidModelOutput :=
  c3_missing_explanation_rejected rawMissingExpl rfl

/-- Claim C7: the prompt renderer is a pure function of the fields of the
validated request the template mentions, so rendering the same request twice
(or any two requests with those fields equal) yields byte-identical text;
there is no hidden randomness. The structured nutrition values do not even
occur in the output, since the template interpolates the nutrition object
as a whole. -/
theorem c7_render_deterministic (i j : PersonalizedFoodRecommendationsInput)
    (h1 : i.userProfile.healthConditions = j.userProfile.healthConditions)
    (h2 : i.userProfile.weightGoals = j.userProfile.weightGoals)
    (h3 : i.foodScanData.foodLabelData = j.foodScanData.foodLabelData) :
    renderPrompt i = renderPrompt j := by
  unfold renderPrompt
  rw [h1, h2, h3]

/-- Claim C7 witness: rendering the fixture request twice gives identical
text. -/
theorem c7_render_deterministic_witness :
    iC6.userProfile.healthConditions = iC6.userProfile.healthConditions ∧
    renderPrompt iC6 = renderPrompt iC6 :=
  ⟨rfl, c7_render_deterministic iC6 iC6 rfl rfl rfl⟩

theorem negative_field_in_issues {raw : RawScanForm} {f : String} {v : Rat}
    (hf : nutritionField raw f = some v) (hneg : v < 0) :
    ValidationIssue.negativeNumber f ∈ scanFormIssues raw := by
  unfold nutritionField at hf
  by_cases h1 : f = ("calories")
  · subst h1
    rw [if_pos rfl] at hf
    simp [scanFormIssues, checkNutrition, hf, hneg]
  · rw [if_neg h1] at hf
    by_cases h2 : f = ("fat")
    · subst h2
      rw [if_pos rfl] at hf
      simp [scanFormIssues, checkNutrition, hf, hneg]
    · rw [if_neg h2] at hf
      by_cases h3 : f = ("sugar")
      · subst h3
        rw [if_pos rfl] at hf
        simp [scanFormIssues, checkNutrition, hf, hneg]
      · rw [if_neg h3] at hf
        by_cases h4 : f = ("sodium")
        · subst h4
          rw [if_pos rfl] at hf
          simp [scanFormIssues, checkNutrition, hf, hneg]
        · rw [if_neg h4] at hf
          exact absurd hf (by simp)

/-- Claim C2: a request whose raw form has a negative nutrition field is
rejected by form validation with an issue naming that field, and the store
is untouched — in particular no request is handed to the external model
(the model-call log of the state is unchanged). `ScanFormSchema` itself is
modelled from the spec, since its definition is absent from the repository
files. -/
theorem c2_negative_nutrition_rejected
    (oracle : PersonalizedFoodRecommendationsInput → Except Unit RawModelReply)
    (uid f : String) (v : Rat) (raw : RawScanForm) (st : ScanState)
    (huid : uid ≠ ("")) (hf : nutritionField raw f = some v) (hneg : v < 0) :
    analyzeAndSaveScan oracle uid raw st =
      (.error (.validation (scanFormIssues raw)), st) ∧
    ValidationIssue.negativeNumber f ∈ scanFormIssues raw := by
  have hmem := negative_field_in_issues hf hneg
  have hne : scanFormIssues raw ≠ [] := List.ne_nil_of_mem hmem
  refine ⟨?_, hmem⟩
  unfold analyzeAndSaveScan
  rw [if_neg huid]
  unfold scanFormParse
  rw [if_neg hne]

/-- Claim C2 witness at a concrete form with sugar equal to minus one. -/
theorem c2_negative_nutrition_rejected_witness :
    (("u1") : String) ≠ ("") ∧
    nutritionField rawFormNeg ("sugar") = some (-1) ∧ ((-1 : Rat) < 0) ∧
    (analyzeAndSaveScan transportOracle ("u1") rawFormNeg stW =
       (.error (.validation (scanFormIssues rawFormNeg)), stW) ∧
     ValidationIssue.negativeNumber ("sugar") ∈ scanFormIssues rawFormNeg) :=
  ⟨by decide, rfl, by decide,
   c2_negative_nutrition_rejected transportOracle ("u1") ("sugar") (-1)
     rawFormNeg stW (by decide) rfl (by decide)⟩

/-- Claim C4: whenever `analyzeAndSaveScan` ends in an error — in particular
when the inference call or its output validation fails — no scan record is
persisted: the scans collection of the resulting state equals the original
one, and by the result type no partial result reaches the caller. -/
theorem c4_no_partial_persist
    (oracle : PersonalizedFoodRecommendationsInput → Except Unit RawModelReply)
    (uid : String) (raw : RawScanForm) (st : ScanState) (err : ScanError)
    (herr : (analyzeAndSaveScan oracle uid raw st).1 = .error err) :
    ((analyzeAndSaveScan oracle uid raw st).2).scans = st.scans := by
  by_cases h0 : uid = ("")
  · simp [analyzeAndSaveScan, h0]
  · cases hp : scanFormParse raw with
    | error issues => simp [analyzeAndSaveScan, h0, hp]
    | ok v =>
      cases hu : lookupUser st.users uid with
      | none => simp [analyzeAndSaveScan, h0, hp, hu]
      | some profile =>
        cases hai : getPersonalizedFoodRecommendations oracle (mkAiInput profile v) with
        | error e => simp [analyzeAndSaveScan, h0, hp, hu, hai]
        | ok out => simp [analyzeAndSaveScan, h0, hp, hu, hai] at herr

/-- Claim C4 witness: with the transport-failure oracle the action errors
and the scans collection is unchanged. -/
theorem c4_no_partial_persist_witness :
    (analyzeAndSaveScan transportOracle ("u1") rawFormW stW).1 =
      .error .processingFailed ∧
    ((analyzeAndSaveScan transportOracle ("u1") rawFormW stW).2).scans = stW.scans :=
  ⟨rfl, c4_no_partial_persist transportOracle ("u1") rawFormW stW .processingFailed rfl⟩

/-- Claim C5 counterexample: when the model reply fails output validation,
the error surfaced by `analyzeAndSaveScan` is the generic
`processingFailed` (the catch block rethrows a fresh generic error), and the
whole outcome is identical to the one of a transport failure — the caller
cannot distinguish the two kinds, contradicting the claim. -/
theorem c5_counterexample :
    (analyzeAndSaveScan badReplyOracle ("u1") rawFormW stW).1 =
      .error .processingFailed ∧
    analyzeAndSaveScan badReplyOracle ("u1") rawFormW stW =
      analyzeAndSaveScan transportOracle ("u1") rawFormW stW :=
  ⟨rfl, rfl⟩

/-- Claim C5 (amended): `analyzeAndSaveScan` collapses every failure of the
inference call into the single generic `processingFailed` error: two runs
whose gateways fail — for any reason each — produce identical outcomes, so
an invalid model reply is not distinguishable from transport failure at
this boundary. -/
theorem c5_error_kind_collapsed
    (o1 o2 : PersonalizedFoodRecommendationsInput → Except Unit RawModelReply)
    (uid : String) (raw : RawScanForm) (st : ScanState)
    (h1 : ∀ i, ∃ e, getPersonalizedFoodRecommendations o1 i = .error e)
    (h2 : ∀ i, ∃ e, getPersonalizedFoodRecommendations o2 i = .error e) :
    analyzeAndSaveScan o1 uid raw st = analyzeAndSaveScan o2 uid raw st := by
  by_cases h0 : uid = ("")
  · simp [analyzeAndSaveScan, h0]
  · cases hp : scanFormParse raw with
    | error issues => simp [analyzeAndSaveScan, h0, hp]
    | ok v =>
      cases hu : lookupUser st.users uid with
      | none => simp [analyzeAndSaveScan, h0, hp, hu]
      | some profile =>
        obtain ⟨e1, he1⟩ := h1 (mkAiInput profile v)
        obtain ⟨e2, he2⟩ := h2 (mkAiInput profile v)
        simp [analyzeAndSaveScan, h0, hp, hu, he1, he2]

/-- Claim C5 amended witness: an invalid-reply run and a transport-failure
run produce the same outcome at the fixtures. -/
theorem c5_error_kind_collapsed_witness :
    analyzeAndSaveScan badReplyOracle ("u1") rawFormW stW =
      analyzeAndSaveScan transportOracle ("u1") rawFormW stW :=
  c5_error_kind_collapsed badReplyOracle transportOracle ("u1") rawFormW stW
    (fun _ => ⟨.invalidModelOutput, rfl⟩) (fun _ => ⟨.inferenceUnavailable, rfl⟩)

set_option maxRecDepth 100000 in
/-- Claim C6 counterexample: the prompt of
src/ai/flows/personalized-food-recommendations.ts (lines 71-121) contains no
instruction separating the health-risk verdict from weight goals — the
rendered text does not contain the CRITICAL separation sentence (shown here
through the absence of the asterisk character, which the sentence uses and
the rendered prompt never does) — and its first few-shot example even ties
the verdict explanation to the user\x27s weight-loss goals. -/
theorem c6_counterexample :
    ¬ strContains (renderPrompt iC6) separationInstruction ∧
    strContains (renderPrompt iC6) weightLossGoalsPhrase := by
  constructor
  · intro h
    have hstar : ('*') ∈ separationInstruction.data := by decide
    have hmem := strContains_mem h hstar
    have hnot : ('*') ∉ (renderPrompt iC6).data := by decide
    exact hnot hmem
  · unfold renderPrompt
    exact strContains_left _ (strContains_right _ (strContains_refl _))

/-- Claim C6 (amended): the weight-goal/verdict separation appears only in
the extended prompt variant (the last snapshot of the same file): every
prompt rendered from the extended template contains the CRITICAL sentence
instructing that the safety assessment must be based on health risks, not
on weight goals. -/
theorem c6_extended_prompt_separates (i : ExtendedInput) :
    strContains (renderPromptExtended i) separationInstruction := by
  unfold renderPromptExtended
  exact strContains_left _ (strContains_right _ (strContains_refl _))

/-- Claim C8: a well-formed request (all form fields present, nutrition
values non-negative) passes form validation, and the prompt rendered from
it is non-empty, contains the product name (inside the rebuilt food-label
line), and contains the tag of every health condition of the profile
(inside the comma-joined conditions interpolation). -/
theorem c8_valid_request_prompt (pn ing : String) (c f su so : Rat)
    (profile : UserProfile)
    (h1 : 0 ≤ c) (h2 : 0 ≤ f) (h3 : 0 ≤ su) (h4 : 0 ≤ so) :
    scanFormParse ⟨some pn, some ing, some c, some f, some su, some so⟩ =
      .ok ⟨pn, ing, c, f, su, so⟩ ∧
    renderPrompt (mkAiInput profile ⟨pn, ing, c, f, su, so⟩) ≠ ("") ∧
    strContains (renderPrompt (mkAiInput profile ⟨pn, ing, c, f, su, so⟩)) pn ∧
    ∀ hc ∈ profile.healthConditions,
      strContains (renderPrompt (mkAiInput profile ⟨pn, ing, c, f, su, so⟩)) hc.text := by
  have hiss : scanFormIssues ⟨some pn, some ing, some c, some f, some su, some so⟩ = [] := by
    simp [scanFormIssues, requireString, checkNutrition,
      not_lt.mpr h1, not_lt.mpr h2, not_lt.mpr h3, not_lt.mpr h4]
  have hfld : renderPrompt (mkAiInput profile ⟨pn, ing, c, f, su, so⟩) =
      promptChunkA ++ joinComma ((profile.healthConditions).map HealthCondition.text) ++
      promptChunkB ++ profile.weightGoals.text ++
      promptChunkC ++ ("Product: " ++ pn ++ ". Ingredients: " ++ ing) ++
      promptChunkD ++ weightLossGoalsPhrase ++ promptChunkE := rfl
  have hphrase : strContains (renderPrompt (mkAiInput profile ⟨pn, ing, c, f, su, so⟩))
      weightLossGoalsPhrase := by
    rw [hfld]
    exact strContains_left _ (strContains_right _ (strContains_refl _))
  refine ⟨?_, ?_, ?_, ?_⟩
  · unfold scanFormParse
    rw [if_pos hiss]
    rfl
  · exact ne_empty_of_contains hphrase (by decide)
  · rw [hfld]
    apply strContains_left
    apply strContains_left
    apply strContains_left
    apply strContains_right
    apply strContains_left
    apply strContains_left
    apply strContains_right
    exact strContains_refl pn
  · intro hc hmem
    rw [hfld]
    apply strContains_left
    apply strContains_left
    apply strContains_left
    apply strContains_left
    apply strContains_left
    apply strContains_left
    apply strContains_left
    apply strContains_right
    exact joinComma_contains (List.mem_map_of_mem HealthCondition.text hmem)

/-- Claim C8 witness at a concrete form and the fixture profile. -/
theorem c8_valid_request_prompt_witness :
    ((0 : Rat) ≤ 140) ∧
    (scanFormParse ⟨some ("Crunchy Oats Cereal"), some ("Oats, Sugar"),
        some 140, some 3, some 12, some 180⟩ =
       .ok ⟨("Crunchy Oats Cereal"), ("Oats, Sugar"), 140, 3, 12, 180⟩ ∧
     renderPrompt (mkAiInput profileW
        ⟨("Crunchy Oats Cereal"), ("Oats, Sugar"), 140, 3, 12, 180⟩) ≠ ("") ∧
     strContains (renderPrompt (mkAiInput profileW
        ⟨("Crunchy Oats Cereal"), ("Oats, Sugar"), 140, 3, 12, 180⟩))
       ("Crunchy Oats Cereal") ∧
     ∀ hc ∈ profileW.healthConditions,
       strContains (renderPrompt (mkAiInput profileW
          ⟨("Crunchy Oats Cereal"), ("Oats, Sugar"), 140, 3, 12, 180⟩)) hc.text) :=
  ⟨by decide,
   c8_valid_request_prompt ("Crunchy Oats Cereal") ("Oats, Sugar") 140 3 12 180
     profileW (by decide) (by decide) (by decide) (by decide)⟩

/-- Claim C9: `deleteScan` succeeds only when a scan with the given id
exists and its `userId` equals the caller uid — and then the stored scans
are exactly the previous ones without that id — while in every error case
(missing id, unauthenticated caller, unknown scan, or foreign owner) the
stored scans are unchanged. -/
theorem c9_deleteScan_owner_only (scanId uid : String) (scans : List Scan) :
    ((deleteScan scanId uid scans).1 = .ok () →
      (∃ sc ∈ scans, sc.id = scanId ∧ sc.userId = uid) ∧
      (deleteScan scanId uid scans).2 = scans.filter (fun sc => sc.id != scanId)) ∧
    (∀ e, (deleteScan scanId uid scans).1 = .error e →
      (deleteScan scanId uid scans).2 = scans) := by
  by_cases h1 : scanId = ("")
  · simp [deleteScan, h1]
  · by_cases h2 : uid = ("")
    · simp [deleteScan, h1, h2]
    · cases hf : scans.find? (fun sc => sc.id == scanId) with
      | none => simp [deleteScan, h1, h2, hf]
      | some sc =>
        by_cases h3 : sc.userId = uid
        · have hmem : sc ∈ scans := List.mem_of_find?_eq_some hf
          have hid : sc.id = scanId := by
            have hp := List.find?_some hf
            simpa using hp
          refine ⟨fun _ => ⟨⟨sc, hmem, hid, h3⟩, ?_⟩, fun e he => ?_⟩
          · simp [deleteScan, h1, h2, hf, h3]
          · exfalso
            simp [deleteScan, h1, h2, hf, h3] at he
        · simp [deleteScan, h1, h2, hf, h3]

/-- Claim C9 witness: a caller who does not own the stored scan gets an
error and the store keeps the record. -/
theorem c9_deleteScan_owner_only_witness :
    ∀ e, (deleteScan ("s1") ("intruder")
        [⟨("s1"), ("u1"), ("Cereal"), ⟨("Cereal"), ("Oats"), 1, 1, 1, 1⟩,
          ⟨.safeToEat, ("ok")⟩⟩]).1 = .error e →
      (deleteScan ("s1") ("intruder")
        [⟨("s1"), ("u1"), ("Cereal"), ⟨("Cereal"), ("Oats"), 1, 1, 1, 1⟩,
          ⟨.safeToEat, ("ok")⟩⟩]).2 =
        [⟨("s1"), ("u1"), ("Cereal"), ⟨("Cereal"), ("Oats"), 1, 1, 1, 1⟩,
          ⟨.safeToEat, ("ok")⟩⟩] :=
  (c9_deleteScan_owner_only ("s1") ("intruder")
    [⟨("s1"), ("u1"), ("Cereal"), ⟨("Cereal"), ("Oats"), 1, 1, 1, 1⟩,
      ⟨.safeToEat, ("ok")⟩⟩]).2

/-- Claim C10: the `assessFoodSafety` input schema accepts exactly the four
tags diabetes, high BP, allergies and none; the application profile type
also allows the tag celiac disease, and an input carrying that legal stored
tag is rejected by the flow input validation with an invalid-enum issue. -/
theorem c10_condition_enum_mismatch :
    (∀ s : String, foodSafetyConditionAccepted s = true ↔
       (s = ("diabetes") ∨ s = ("high BP") ∨ s = ("allergies") ∨ s = ("none"))) ∧
    ("celiac disease") ∈ ALL_HEALTH_CONDITIONS ∧
    ∀ ing nf : String, ∃ issues,
      validateFoodSafetyInput ⟨some ing, some nf, [("celiac disease")]⟩ = .error issues ∧
      ValidationIssue.invalidEnumValue ("healthConditions") ("celiac disease") ∈ issues := by
  refine ⟨?_, by decide, ?_⟩
  · intro s
    simp [foodSafetyConditionAccepted]
  · intro ing nf
    have hacc : foodSafetyConditionAccepted ("celiac disease") = false := by rfl
    have hiss : foodSafetyInputIssues ⟨some ing, some nf, [("celiac disease")]⟩ =
        [.invalidEnumValue ("healthConditions") ("celiac disease")] := by
      simp [foodSafetyInputIssues, requireString, List.filter, hacc]
    refine ⟨[.invalidEnumValue ("healthConditions") ("celiac disease")], ?_, by simp⟩
    unfold validateFoodSafetyInput
    rw [hiss]
    simp

end FoodWise
